import Mathlib

/-!
# Verification of the MQLib D-Wave solver bridge

Shallow embedding of:
* `include/heuristics/qubo/dwave_bridge.h` (the `DWaveResult` type and the
  `run_dwave_solver` interface),
* the `run_dwave_solver` implementation (both the `USE_DWAVE` branch and the
  disabled branch of the preprocessor switch),
* the `DWaveQPU` and `DWaveSA` adapter constructors from
  `src/heuristics/qubo/dwave_qpu.cpp`.

The foreign (Python) side is modelled as an oracle `ForeignSolve` mapping the
marshalled arguments of one invocation to an outcome: a successful
`(sample, weight)` pair, an exception derived from `std::exception` carrying a
message (every Python-side error surfaced by pybind11, including
`error_already_set` and `cast_error`, is of this kind and carries the foreign
exception text in `what()`), or an exception of some other C++ type.  The
bridge performs no arithmetic on the weights (they are only compared with an
exact 0.0 and forwarded), so `double` is modelled as `Rat`.  The C++ out
pointer `std::string* error_message` is modelled by a `Bool` saying whether the
pointer is non-null together with an `Option String` result holding the final
content of the pointee (`none` when the pointer is null); every write in the
source is guarded by `if (error_message)` and the model mirrors those guards.
The third component of the bridge result counts interactions with the foreign
runtime (the disabled branch makes none; the enabled branch always makes
some, collapsed to a single session here).
-/

/-- Result of a D-Wave solve: a 0/1 assignment and its objective value in the
MQLib maximisation convention (`struct DWaveResult` in `dwave_bridge.h`). -/
structure DWaveResult where
  best_sample : List Int
  best_weight : Rat
deriving DecidableEq

/-- Outcome of the foreign (Python) side of one bridge invocation. -/
inductive ForeignOutcome where
  /-- path setup, import, call and coercion all succeeded, yielding the
  coerced `(sample, weight)` pair -/
  | ok (sample : List Int) (weight : Rat)
  /-- an exception derived from `std::exception` whose `what()` is `msg`;
  every pybind11-translated Python error is of this kind -/
  | exn (msg : String)
  /-- a C++ exception not derived from `std::exception` -/
  | exnUnknown
deriving DecidableEq

/-- The foreign environment as an oracle: from the marshalled term list, the
backend string and the config argument it determines the outcome of the
invocation. -/
def ForeignSolve : Type :=
  List (Int × Int × Rat) → String → Option String → ForeignOutcome

/-- The `cfg_path_obj` construction in `run_dwave_solver`: an empty
`config_json_path` becomes Python `None` (`py::none()`), a non-empty one the
string itself (`py::str`). -/
def cfgArg (config_json_path : String) : Option String :=
  if config_json_path = "" then none else some config_json_path

/-- The `terms_py` marshalling loop in `run_dwave_solver`: each `(i, j, w)`
C++ tuple is rebuilt as a Python 3-tuple. -/
def marshalTerms (qubo_terms : List (Int × Int × Rat)) : List (Int × Int × Rat) :=
  qubo_terms.map fun t => (t.1, t.2.1, t.2.2)

/-- `run_dwave_solver`, `USE_DWAVE` branch (`dwave_sa.h` implementation
part).  The error string is cleared up front when the pointer is non-null;
the whole pybind11 interaction sits in one `try` block whose outcome the
oracle supplies; `catch (const std::exception&)` stores `what()` verbatim and
clears the sample, `catch (...)` stores a fixed message and clears the
sample. -/
def run_dwave_solver_enabled (qubo_terms : List (Int × Int × Rat)) (backend : String)
    (config_json_path : String) (errNonNull : Bool) (foreign : ForeignSolve) :
    DWaveResult × Option String × Nat :=
  match foreign (marshalTerms qubo_terms) backend (cfgArg config_json_path) with
  | ForeignOutcome.ok sample weight =>
      (⟨sample, weight⟩, if errNonNull then some "" else none, 1)
  | ForeignOutcome.exn msg =>
      (⟨[], 0⟩, if errNonNull then some msg else none, 1)
  | ForeignOutcome.exnUnknown =>
      (⟨[], 0⟩, if errNonNull then some "Unknown exception in run_dwave_solver" else none, 1)

/-- `run_dwave_solver`, branch compiled when `USE_DWAVE` is not defined: no
foreign library is linked, the sample is empty and the diagnostic is stored
when the pointer is non-null. -/
def run_dwave_solver_disabled (_qubo_terms : List (Int × Int × Rat)) (_backend : String)
    (_config_json_path : String) (errNonNull : Bool) :
    DWaveResult × Option String × Nat :=
  (⟨[], 0⟩,
   if errNonNull then some "D-Wave support not compiled (USE_DWAVE not defined)" else none,
   0)

/-- The preprocessor switch: which of the two `run_dwave_solver` definitions
is compiled into the build. -/
def run_dwave_solver (useDwave : Bool) (qubo_terms : List (Int × Int × Rat))
    (backend : String) (config_json_path : String) (errNonNull : Bool)
    (foreign : ForeignSolve) : DWaveResult × Option String × Nat :=
  if useDwave then
    run_dwave_solver_enabled qubo_terms backend config_json_path errNonNull foreign
  else
    run_dwave_solver_disabled qubo_terms backend config_json_path errNonNull

/-- The slice of `QUBOInstance` the adapters read: `get_lin()` (whose length
is `get_size()`) and the nonzero off-diagonal entries in the order of
`get_all_nonzero_begin()..get_all_nonzero_end()`, each keyed by an index
pair. -/
structure QUBOInstance where
  lin : List Rat
  nonzeroPairs : List ((Int × Int) × Rat)
deriving DecidableEq

/-- `get_size()`: the number of variables, which is the length of the linear
weight vector. -/
def QUBOInstance.size (qi : QUBOInstance) : Nat := qi.lin.length

/-- Term extraction in the `DWaveQPU` constructor: one `(i, i, w)` triple per
index with nonzero linear weight, in index order, followed by the nonzero
off-diagonal entries in iterator order. -/
def dwaveQPUTerms (qi : QUBOInstance) : List (Int × Int × Rat) :=
  ((List.range qi.size).filterMap fun i =>
    let w := qi.lin.getD i 0
    if w ≠ 0 then some ((i : Int), (i : Int), w) else none) ++
  qi.nonzeroPairs.filterMap fun e =>
    if e.2 ≠ 0 then some (e.1.1, e.1.2, e.2) else none

/-- Term extraction in the `DWaveSA` constructor (duplicated in the source,
transcribed separately). -/
def dwaveSATerms (qi : QUBOInstance) : List (Int × Int × Rat) :=
  ((List.range qi.size).filterMap fun i =>
    let w := qi.lin.getD i 0
    if w ≠ 0 then some ((i : Int), (i : Int), w) else none) ++
  qi.nonzeroPairs.filterMap fun e =>
    if e.2 ≠ 0 then some (e.1.1, e.1.2, e.2) else none

/-- The argument triple an adapter hands to `run_dwave_solver`. -/
structure SolverCall where
  terms : List (Int × Int × Rat)
  backend : String
  config : String
deriving DecidableEq

/-- The arguments `DWaveQPU` sends to the bridge: its term list, the fixed
backend string "qpu" and an empty config path (`std::string()`).  The runtime
limit, the validation flag and the callback pointer are forwarded only to the
`QUBOHeuristic` base class. -/
def dwaveQPUCall (qi : QUBOInstance) (_runtime_limit : Rat) (_validation : Bool)
    (_qc : Bool) : SolverCall :=
  ⟨dwaveQPUTerms qi, "qpu", ""⟩

/-- The arguments `DWaveSA` sends to the bridge: its term list, the fixed
backend string "sa" and an empty config path (`std::string()`). -/
def dwaveSACall (qi : QUBOInstance) (_runtime_limit : Rat) (_validation : Bool)
    (_qc : Bool) : SolverCall :=
  ⟨dwaveSATerms qi, "sa", ""⟩

/-- Observable actions of an adapter constructor: a diagnostic line written to
`std::cerr`, or a `Report` call carrying the assignment the solution object is
built from. -/
inductive AdapterEvent where
  | diag (msg : String)
  | report (sample : List Int)
deriving DecidableEq

/-- Whether an adapter event is a `Report` call. -/
def AdapterEvent.isReport : AdapterEvent → Bool
  | AdapterEvent.report _ => true
  | AdapterEvent.diag _ => false

/-- Number of `Report` calls in an adapter event trace. -/
def reportCount (events : List AdapterEvent) : Nat :=
  (events.filter AdapterEvent.isReport).length

/-- The `DWaveQPU` constructor body after term extraction: call the bridge
with backend "qpu", empty config path and the address of a local empty error
string, then either emit a diagnostic (when the error string is non-empty, or
the sample is empty) or build a solution from the sample and report it
once. -/
def dwaveQPURun (qi : QUBOInstance) (_runtime_limit : Rat) (_validation : Bool)
    (_qc : Bool) (useDwave : Bool) (foreign : ForeignSolve) : List AdapterEvent :=
  let out := run_dwave_solver useDwave (dwaveQPUTerms qi) "qpu" "" true foreign
  let res := out.1
  let error := out.2.1.getD ""
  if error ≠ "" then [AdapterEvent.diag ("DWaveQPU error: " ++ error)]
  else if res.best_sample = [] then [AdapterEvent.diag "DWaveQPU: no sample returned"]
  else [AdapterEvent.report res.best_sample]

/-- The `DWaveSA` constructor body after term extraction (duplicated in the
source, transcribed separately): same shape with backend "sa" and its own
diagnostic labels. -/
def dwaveSARun (qi : QUBOInstance) (_runtime_limit : Rat) (_validation : Bool)
    (_qc : Bool) (useDwave : Bool) (foreign : ForeignSolve) : List AdapterEvent :=
  let out := run_dwave_solver useDwave (dwaveSATerms qi) "sa" "" true foreign
  let res := out.1
  let error := out.2.1.getD ""
  if error ≠ "" then [AdapterEvent.diag ("DWaveSA error: " ++ error)]
  else if res.best_sample = [] then [AdapterEvent.diag "DWaveSA: no sample returned"]
  else [AdapterEvent.report res.best_sample]

/-- The concrete instance of the specification scenario: `size = 3`, linear
weights `[1, 0, -2]`, one off-diagonal pair `(0, 2)` with weight `3.5`
(written `mkRat 7 2` so that the kernel can evaluate it). -/
def exampleInstance : QUBOInstance :=
  ⟨[1, 0, -2], [((0, 2), mkRat 7 2)]⟩

/-! ## Helper lemmas -/

/-- A `filterMap` whose function is a guarded `some` is a `map` after a
`filter`. -/
theorem filterMap_guard_eq_map_filter {α β : Type} (p : α → Prop) [DecidablePred p]
    (g : α → β) (l : List α) :
    (l.filterMap fun a => if p a then some (g a) else none) =
      (l.filter fun a => decide (p a)).map g := by
  induction l with
  | nil => rfl
  | cons a t ih =>
    by_cases h : p a <;> simp [List.filterMap_cons, h, ih]

/-- Case analysis of the common adapter tail: the trace contains at most one
report; exactly one report appears iff the error string is empty and the
sample non-empty; otherwise the trace is a single diagnostic. -/
theorem adapterEvents_cases (err : String) (sample : List Int) (m1 m2 : String) :
    reportCount (if err ≠ "" then [AdapterEvent.diag m1]
      else if sample = [] then [AdapterEvent.diag m2]
      else [AdapterEvent.report sample]) ≤ 1 ∧
    (reportCount (if err ≠ "" then [AdapterEvent.diag m1]
      else if sample = [] then [AdapterEvent.diag m2]
      else [AdapterEvent.report sample]) = 1 ↔ err = "" ∧ sample ≠ []) ∧
    (err ≠ "" → (if err ≠ "" then [AdapterEvent.diag m1]
      else if sample = [] then [AdapterEvent.diag m2]
      else [AdapterEvent.report sample]) = [AdapterEvent.diag m1]) ∧
    (err = "" → sample = [] → (if err ≠ "" then [AdapterEvent.diag m1]
      else if sample = [] then [AdapterEvent.diag m2]
      else [AdapterEvent.report sample]) = [AdapterEvent.diag m2]) ∧
    (err = "" → sample ≠ [] → (if err ≠ "" then [AdapterEvent.diag m1]
      else if sample = [] then [AdapterEvent.diag m2]
      else [AdapterEvent.report sample]) = [AdapterEvent.report sample]) ∧
    (sample = [] → reportCount (if err ≠ "" then [AdapterEvent.diag m1]
      else if sample = [] then [AdapterEvent.diag m2]
      else [AdapterEvent.report sample]) = 0) := by
  by_cases he : err = "" <;> by_cases hs : sample = [] <;>
    simp [he, hs, reportCount, AdapterEvent.isReport]

/-! ## Claim theorems -/

/-- C1: in a `USE_DWAVE` build, `run_dwave_solver` is a total function of the
foreign outcome (no exception propagates to the caller); when the foreign
side raises an exception carrying text, the result has an empty `best_sample`
and the error message, stored only when the pointer is non-null, is the
foreign exception text verbatim; an exception of unknown type also yields an
empty `best_sample`. -/
theorem run_dwave_solver_enabled_exception_to_error
    (terms : List (Int × Int × Rat)) (backend cfg : String) (errNonNull : Bool)
    (foreign : ForeignSolve) :
    (∀ msg, foreign (marshalTerms terms) backend (cfgArg cfg) = ForeignOutcome.exn msg →
      (run_dwave_solver_enabled terms backend cfg errNonNull foreign).1 = ⟨[], 0⟩ ∧
      (run_dwave_solver_enabled terms backend cfg errNonNull foreign).2.1 =
        if errNonNull then some msg else none) ∧
    (foreign (marshalTerms terms) backend (cfgArg cfg) = ForeignOutcome.exnUnknown →
      (run_dwave_solver_enabled terms backend cfg errNonNull foreign).1 = ⟨[], 0⟩) := by
  constructor
  · intro msg h
    constructor <;> simp [run_dwave_solver_enabled, h]
  · intro h
    simp [run_dwave_solver_enabled, h]

/-- Witness for C1 at the specification's "timeout" scenario. -/
theorem run_dwave_solver_enabled_exception_to_error_witness :
    (run_dwave_solver_enabled [((0 : Int), (0 : Int), (1 : Rat))] "sa" "" true
        (fun _ _ _ => ForeignOutcome.exn "timeout")).1 = ⟨[], 0⟩ ∧
    (run_dwave_solver_enabled [((0 : Int), (0 : Int), (1 : Rat))] "sa" "" true
        (fun _ _ _ => ForeignOutcome.exn "timeout")).2.1 =
      if true then some "timeout" else none :=
  (run_dwave_solver_enabled_exception_to_error [((0 : Int), (0 : Int), (1 : Rat))]
    "sa" "" true (fun _ _ _ => ForeignOutcome.exn "timeout")).1 "timeout" rfl

/-- C2: in a build without `USE_DWAVE`, `run_dwave_solver` returns an empty
`best_sample`, stores the fixed disabled diagnostic when the pointer is
non-null, makes zero foreign calls, and is the function the build switch
selects — independently of every argument and of the foreign oracle. -/
theorem run_dwave_solver_disabled_spec
    (terms : List (Int × Int × Rat)) (backend cfg : String) (errNonNull : Bool) :
    run_dwave_solver_disabled terms backend cfg errNonNull =
      (⟨[], 0⟩,
       (if errNonNull then some "D-Wave support not compiled (USE_DWAVE not defined)"
        else none),
       0) ∧
    ∀ foreign : ForeignSolve,
      run_dwave_solver false terms backend cfg errNonNull foreign =
        run_dwave_solver_disabled terms backend cfg errNonNull :=
  ⟨rfl, fun _ => rfl⟩

/-- C3: an empty config path is translated to the distinguished sentinel
`none` (Python `None`), which differs from every string value; a non-empty
path is passed through verbatim; the bridge never passes the empty string as
a config value. -/
theorem cfgArg_no_config_sentinel :
    cfgArg "" = none ∧
    (∀ t : String, (none : Option String) ≠ some t) ∧
    (∀ s : String, s ≠ "" → cfgArg s = some s) ∧
    (∀ s t : String, cfgArg s = some t → t ≠ "") := by
  refine ⟨rfl, fun t h => Option.noConfusion h, fun s hs => ?_, fun s t h => ?_⟩
  · simp [cfgArg, hs]
  · by_cases hs : s = ""
    · simp [cfgArg, hs] at h
    · simp [cfgArg, hs] at h
      exact h ▸ hs

/-- Witness for C3 at a non-empty path. -/
theorem cfgArg_no_config_sentinel_witness :
    cfgArg "cfg.json" = some "cfg.json" ∧ ("cfg.json" : String) ≠ "" :=
  ⟨cfgArg_no_config_sentinel.2.2.1 "cfg.json" (by decide),
   cfgArg_no_config_sentinel.2.2.2 "cfg.json" "cfg.json"
     (cfgArg_no_config_sentinel.2.2.1 "cfg.json" (by decide))⟩

/-- C4: the adapter term list decomposes as a diagonal part followed by the
off-diagonal part: the diagonal part has strictly increasing indices,
contains `(i, i, w)` exactly for the indices below `size` with nonzero linear
weight `w`, and only diagonal triples; the off-diagonal part is the nonzero
entries of the pair iterator in its order; every emitted term has nonzero
weight; the length is at most `size` plus the pair count; the specification's
concrete `size = 3` scenario evaluates as stated; the SA adapter builds the
same list. -/
theorem dwaveQPUTerms_spec (qi : QUBOInstance) :
    (∃ d o, dwaveQPUTerms qi = d ++ o ∧
      List.Pairwise (fun a b : Int × Int × Rat => a.1 < b.1) d ∧
      (∀ (i : Nat) (w : Rat),
        ((i : Int), (i : Int), w) ∈ d ↔ i < qi.size ∧ qi.lin.getD i 0 = w ∧ w ≠ 0) ∧
      (∀ t ∈ d, t.1 = t.2.1) ∧
      o = qi.nonzeroPairs.filterMap fun e =>
        if e.2 ≠ 0 then some (e.1.1, e.1.2, e.2) else none) ∧
    (∀ t ∈ dwaveQPUTerms qi, t.2.2 ≠ 0) ∧
    (dwaveQPUTerms qi).length ≤ qi.size + qi.nonzeroPairs.length ∧
    dwaveSATerms qi = dwaveQPUTerms qi ∧
    dwaveQPUTerms exampleInstance =
      [(0, 0, 1), (2, 2, -2), (0, 2, mkRat 7 2)] := by
  have hd : ((List.range qi.size).filterMap fun i =>
      let w := qi.lin.getD i 0
      if w ≠ 0 then some ((i : Int), (i : Int), w) else none) =
      ((List.range qi.size).filter fun i => decide (qi.lin.getD i 0 ≠ 0)).map
        (fun i : Nat => ((i : Int), (i : Int), qi.lin.getD i 0)) :=
    filterMap_guard_eq_map_filter (fun i => qi.lin.getD i 0 ≠ 0)
      (fun i : Nat => ((i : Int), (i : Int), qi.lin.getD i 0)) (List.range qi.size)
  refine ⟨⟨_, _, rfl, ?_, ?_, ?_, rfl⟩, ?_, ?_, rfl, by decide⟩
  · rw [hd]
    refine List.Pairwise.map _ (fun a b hab => ?_)
      ((List.pairwise_lt_range qi.size).filter _)
    simpa using hab
  · intro i w
    rw [hd]
    simp only [List.mem_map, List.mem_filter, List.mem_range, decide_eq_true_eq,
      Prod.mk.injEq, Int.natCast_inj]
    constructor
    · rintro ⟨a, ⟨ha, h0⟩, hai, -, hw⟩
      exact ⟨hai ▸ ha, hai ▸ hw, hw ▸ h0⟩
    · rintro ⟨hi, hw, h0⟩
      exact ⟨i, ⟨hi, hw ▸ h0⟩, rfl, rfl, hw⟩
  · intro t ht
    rw [hd] at ht
    obtain ⟨a, -, ha⟩ := List.mem_map.1 ht
    simp [← ha]
  · intro t ht
    rcases List.mem_append.1 ht with h | h
    · rw [hd] at h
      obtain ⟨a, hmem, ha⟩ := List.mem_map.1 h
      have h0 := (List.mem_filter.1 hmem).2
      simp only [decide_eq_true_eq] at h0
      simpa [← ha] using h0
    · obtain ⟨e, -, he⟩ := List.mem_filterMap.1 h
      by_cases h0 : e.2 = 0
      · simp [h0] at he
      · simp only [h0, ne_eq, not_false_eq_true, if_true, Option.some.injEq] at he
        simpa [← he] using h0
  · have h1 : ((List.range qi.size).filterMap fun i =>
        let w := qi.lin.getD i 0
        if w ≠ 0 then some ((i : Int), (i : Int), w) else none).length ≤ qi.size := by
      calc ((List.range qi.size).filterMap fun i =>
            let w := qi.lin.getD i 0
            if w ≠ 0 then some ((i : Int), (i : Int), w) else none).length
          ≤ (List.range qi.size).length := List.length_filterMap_le _ _
        _ = qi.size := List.length_range qi.size
    have h2 : (qi.nonzeroPairs.filterMap fun e =>
        if e.2 ≠ 0 then some (e.1.1, e.1.2, e.2) else none).length ≤
        qi.nonzeroPairs.length := List.length_filterMap_le _ _
    calc (dwaveQPUTerms qi).length
        = ((List.range qi.size).filterMap fun i =>
            let w := qi.lin.getD i 0
            if w ≠ 0 then some ((i : Int), (i : Int), w) else none).length +
          (qi.nonzeroPairs.filterMap fun e =>
            if e.2 ≠ 0 then some (e.1.1, e.1.2, e.2) else none).length :=
          List.length_append _ _
      _ ≤ qi.size + qi.nonzeroPairs.length := Nat.add_le_add h1 h2

/-- Witness for C4: the diagonal triple `(0, 0, 1)` of the concrete scenario
is in the list and its weight is nonzero. -/
theorem dwaveQPUTerms_spec_witness :
    (((0 : Int), (0 : Int), (1 : Rat))).2.2 ≠ 0 :=
  (dwaveQPUTerms_spec exampleInstance).2.1 ((0 : Int), (0 : Int), (1 : Rat)) (by decide)

/-- C5 counterexample: on the concrete scenario instance (`size = 3`), a
foreign call returning the length-2 assignment `[1, 0]` with no error makes
the QPU adapter call `Report` — the adapter performs no length check against
the instance size, contradicting the claim that a wrong-length assignment is
treated as failure with no report. -/
theorem dwaveQPURun_reports_wrong_length_sample :
    dwaveQPURun exampleInstance 0 false false true
        (fun _ _ _ => ForeignOutcome.ok [1, 0] 0) =
      [AdapterEvent.report [1, 0]] ∧
    ([1, 0] : List Int).length ≠ exampleInstance.size := by
  constructor <;> decide

/-- C5 amended: a returned assignment of length 0 is treated as failure (no
report); when the bridge reports no error, any non-empty assignment — of any
length — is handed to solution construction and reported. -/
theorem adapter_empty_sample_no_report (qi : QUBOInstance) (rl : Rat)
    (v qc useDwave : Bool) (foreign : ForeignSolve) :
    ((run_dwave_solver useDwave (dwaveQPUTerms qi) "qpu" "" true foreign).1.best_sample = [] →
      reportCount (dwaveQPURun qi rl v qc useDwave foreign) = 0) ∧
    ((run_dwave_solver useDwave (dwaveQPUTerms qi) "qpu" "" true foreign).2.1.getD "" = "" →
     (run_dwave_solver useDwave (dwaveQPUTerms qi) "qpu" "" true foreign).1.best_sample ≠ [] →
      dwaveQPURun qi rl v qc useDwave foreign =
        [AdapterEvent.report
          (run_dwave_solver useDwave (dwaveQPUTerms qi) "qpu" "" true foreign).1.best_sample]) ∧
    ((run_dwave_solver useDwave (dwaveSATerms qi) "sa" "" true foreign).1.best_sample = [] →
      reportCount (dwaveSARun qi rl v qc useDwave foreign) = 0) ∧
    ((run_dwave_solver useDwave (dwaveSATerms qi) "sa" "" true foreign).2.1.getD "" = "" →
     (run_dwave_solver useDwave (dwaveSATerms qi) "sa" "" true foreign).1.best_sample ≠ [] →
      dwaveSARun qi rl v qc useDwave foreign =
        [AdapterEvent.report
          (run_dwave_solver useDwave (dwaveSATerms qi) "sa" "" true foreign).1.best_sample]) := by
  have hq := adapterEvents_cases
    ((run_dwave_solver useDwave (dwaveQPUTerms qi) "qpu" "" true foreign).2.1.getD "")
    ((run_dwave_solver useDwave (dwaveQPUTerms qi) "qpu" "" true foreign).1.best_sample)
    ("DWaveQPU error: " ++
      (run_dwave_solver useDwave (dwaveQPUTerms qi) "qpu" "" true foreign).2.1.getD "")
    "DWaveQPU: no sample returned"
  have hs := adapterEvents_cases
    ((run_dwave_solver useDwave (dwaveSATerms qi) "sa" "" true foreign).2.1.getD "")
    ((run_dwave_solver useDwave (dwaveSATerms qi) "sa" "" true foreign).1.best_sample)
    ("DWaveSA error: " ++
      (run_dwave_solver useDwave (dwaveSATerms qi) "sa" "" true foreign).2.1.getD "")
    "DWaveSA: no sample returned"
  exact ⟨hq.2.2.2.2.2, hq.2.2.2.2.1, hs.2.2.2.2.2, hs.2.2.2.2.1⟩

/-- Witness for amended C5: a disabled build yields an empty sample and no
report; an SA run whose foreign call succeeds with `[1, 0]` reports it. -/
theorem adapter_empty_sample_no_report_witness :
    reportCount (dwaveQPURun exampleInstance 0 false false false
        (fun _ _ _ => ForeignOutcome.exnUnknown)) = 0 ∧
    dwaveSARun exampleInstance 0 false false true
        (fun _ _ _ => ForeignOutcome.ok [1, 0] 0) =
      [AdapterEvent.report [1, 0]] :=
  ⟨(adapter_empty_sample_no_report exampleInstance 0 false false false
      (fun _ _ _ => ForeignOutcome.exnUnknown)).1 (by decide),
   (adapter_empty_sample_no_report exampleInstance 0 false false true
      (fun _ _ _ => ForeignOutcome.ok [1, 0] 0)).2.2.2 (by decide) (by decide)⟩

/-- C6: each adapter reports at most once; it reports exactly when the bridge
left the error string empty and returned a non-empty sample; on a non-empty
error string it emits the single diagnostic naming the adapter and the error;
on an empty error string with empty sample it emits the single no-sample
diagnostic; symmetrically for both adapters, and nothing is raised (the trace
is a total function of the inputs). -/
theorem adapter_report_iff_success (qi : QUBOInstance) (rl : Rat)
    (v qc useDwave : Bool) (foreign : ForeignSolve) :
    reportCount (dwaveQPURun qi rl v qc useDwave foreign) ≤ 1 ∧
    (reportCount (dwaveQPURun qi rl v qc useDwave foreign) = 1 ↔
      (run_dwave_solver useDwave (dwaveQPUTerms qi) "qpu" "" true foreign).2.1.getD "" = "" ∧
      (run_dwave_solver useDwave (dwaveQPUTerms qi) "qpu" "" true foreign).1.best_sample ≠ []) ∧
    ((run_dwave_solver useDwave (dwaveQPUTerms qi) "qpu" "" true foreign).2.1.getD "" ≠ "" →
      dwaveQPURun qi rl v qc useDwave foreign =
        [AdapterEvent.diag ("DWaveQPU error: " ++
          (run_dwave_solver useDwave (dwaveQPUTerms qi) "qpu" "" true foreign).2.1.getD "")]) ∧
    ((run_dwave_solver useDwave (dwaveQPUTerms qi) "qpu" "" true foreign).2.1.getD "" = "" →
     (run_dwave_solver useDwave (dwaveQPUTerms qi) "qpu" "" true foreign).1.best_sample = [] →
      dwaveQPURun qi rl v qc useDwave foreign =
        [AdapterEvent.diag "DWaveQPU: no sample returned"]) ∧
    reportCount (dwaveSARun qi rl v qc useDwave foreign) ≤ 1 ∧
    (reportCount (dwaveSARun qi rl v qc useDwave foreign) = 1 ↔
      (run_dwave_solver useDwave (dwaveSATerms qi) "sa" "" true foreign).2.1.getD "" = "" ∧
      (run_dwave_solver useDwave (dwaveSATerms qi) "sa" "" true foreign).1.best_sample ≠ []) ∧
    ((run_dwave_solver useDwave (dwaveSATerms qi) "sa" "" true foreign).2.1.getD "" ≠ "" →
      dwaveSARun qi rl v qc useDwave foreign =
        [AdapterEvent.diag ("DWaveSA error: " ++
          (run_dwave_solver useDwave (dwaveSATerms qi) "sa" "" true foreign).2.1.getD "")]) ∧
    ((run_dwave_solver useDwave (dwaveSATerms qi) "sa" "" true foreign).2.1.getD "" = "" →
     (run_dwave_solver useDwave (dwaveSATerms qi) "sa" "" true foreign).1.best_sample = [] →
      dwaveSARun qi rl v qc useDwave foreign =
        [AdapterEvent.diag "DWaveSA: no sample returned"]) := by
  have hq := adapterEvents_cases
    ((run_dwave_solver useDwave (dwaveQPUTerms qi) "qpu" "" true foreign).2.1.getD "")
    ((run_dwave_solver useDwave (dwaveQPUTerms qi) "qpu" "" true foreign).1.best_sample)
    ("DWaveQPU error: " ++
      (run_dwave_solver useDwave (dwaveQPUTerms qi) "qpu" "" true foreign).2.1.getD "")
    "DWaveQPU: no sample returned"
  have hs := adapterEvents_cases
    ((run_dwave_solver useDwave (dwaveSATerms qi) "sa" "" true foreign).2.1.getD "")
    ((run_dwave_solver useDwave (dwaveSATerms qi) "sa" "" true foreign).1.best_sample)
    ("DWaveSA error: " ++
      (run_dwave_solver useDwave (dwaveSATerms qi) "sa" "" true foreign).2.1.getD "")
    "DWaveSA: no sample returned"
  exact ⟨hq.1, hq.2.1, hq.2.2.1, hq.2.2.2.1, hs.1, hs.2.1, hs.2.2.1, hs.2.2.2.1⟩

/-- Witness for C6: in a disabled build the QPU adapter emits exactly the
error diagnostic naming itself and the bridge error. -/
theorem adapter_report_iff_success_witness :
    dwaveQPURun exampleInstance 0 false false false
        (fun _ _ _ => ForeignOutcome.exnUnknown) =
      [AdapterEvent.diag ("DWaveQPU error: " ++
        (run_dwave_solver false (dwaveQPUTerms exampleInstance) "qpu" "" true
          (fun _ _ _ => ForeignOutcome.exnUnknown)).2.1.getD "")] :=
  (adapter_report_iff_success exampleInstance 0 false false false
    (fun _ _ _ => ForeignOutcome.exnUnknown)).2.2.1 (by decide)

/-- C7: the two adapters build equal term lists and pass the same config
argument to the bridge; they differ in the backend string ("qpu" versus
"sa"). -/
theorem dwave_adapters_symmetric (qi : QUBOInstance) (rl : Rat) (v qc : Bool) :
    dwaveQPUTerms qi = dwaveSATerms qi ∧
    (dwaveQPUCall qi rl v qc).terms = (dwaveSACall qi rl v qc).terms ∧
    (dwaveQPUCall qi rl v qc).config = (dwaveSACall qi rl v qc).config ∧
    (dwaveQPUCall qi rl v qc).backend = "qpu" ∧
    (dwaveSACall qi rl v qc).backend = "sa" :=
  ⟨rfl, rfl, rfl, rfl, rfl⟩

/-- C9: `run_dwave_solver` tolerates a null error-message pointer: with the
pointer null nothing is ever stored through it, while the returned
`DWaveResult` and the number of foreign calls coincide with the non-null
run, on every path of either build. -/
theorem run_dwave_solver_null_error_pointer_safe (useDwave : Bool)
    (terms : List (Int × Int × Rat)) (backend cfg : String) (foreign : ForeignSolve) :
    (run_dwave_solver useDwave terms backend cfg false foreign).1 =
      (run_dwave_solver useDwave terms backend cfg true foreign).1 ∧
    (run_dwave_solver useDwave terms backend cfg false foreign).2.2 =
      (run_dwave_solver useDwave terms backend cfg true foreign).2.2 ∧
    (run_dwave_solver useDwave terms backend cfg false foreign).2.1 = none := by
  cases useDwave with
  | false => exact ⟨rfl, rfl, rfl⟩
  | true =>
    cases h : foreign (marshalTerms terms) backend (cfgArg cfg) <;>
      simp [run_dwave_solver, run_dwave_solver_enabled, h]

/-- C10: the arguments an adapter sends to the bridge depend only on the
instance: changing the runtime limit, the validation flag or the callback
pointer leaves the solver call unchanged, for both adapters. -/
theorem solverCall_depends_only_on_the_instance (qi : QUBOInstance)
    (rl1 rl2 : Rat) (v1 v2 q1 q2 : Bool) :
    dwaveQPUCall qi rl1 v1 q1 = dwaveQPUCall qi rl2 v2 q2 ∧
    dwaveSACall qi rl1 v1 q1 = dwaveSACall qi rl2 v2 q2 :=
  ⟨rfl, rfl⟩
